import Mathlib

/-!
Verification of the request/response correlation engine and subprocess
lifecycle manager in `src/stow/shared/skills/_utils/playwright_session.py`
(class `PlaywrightSession`).

The Python code is shallowly embedded as follows.

JSON values decoded by `json.loads` become the inductive type `Json`
(numbers are modelled as integers; float ids never occur in the claims
under study).  The session object becomes the structure `SessionState`:
the fields `process`/`process.stdin`/`process.stdout` collapse to the
boolean `started`, `msg_id` becomes `msgId`, `pending_responses` (a dict
from int to `queue.Queue`) becomes an association list from `Int` to the
list of messages put on that queue, in order.  Threads are replaced by
explicit interleaving: the stdout pump is the fold `readStdoutRun` of one
step per line, and `_send_request` takes the list of lines the pump
processes while the caller blocks (`arrivals`), plus an optional write
exception (`writeErr`, modelling a failure of `stdin.write`/`flush`) and
the abstract parse function standing for `json.loads` (which is a library
call; `none` models `json.JSONDecodeError`).  Wall-clock time is not
modelled: `queue.Queue.get(timeout=...)` succeeds exactly when the pump
put a message on the queue during the wait.  Python exceptions that the
code can raise or propagate become the `PyExc` inductive returned through
`Except`; uncaught exceptions in the pump thread terminate the fold.
Semantics of the polymorphic Python operators used by the code
(`in`, subscription, iteration, `str()`, `json.dumps`, `str.join`)
are reproduced by the `py*` helpers below.
-/

/-- A JSON value as decoded by `json.loads` (numbers restricted to
integers, which is all the protocol under study uses). -/
inductive Json where
  | null : Json
  | bool : Bool → Json
  | num : Int → Json
  | str : String → Json
  | arr : List Json → Json
  | obj : List (String × Json) → Json

/-- The Python exceptions the embedded code can raise or propagate. -/
inductive PyExc where
  | runtimeError : String → PyExc
  | timeoutError : String → PyExc
  | typeError : String → PyExc
  | attributeError : String → PyExc
  | keyError : String → PyExc
deriving DecidableEq

/-- First-match lookup in a string-keyed association list, the model of
Python dict subscription and `dict.get` (keys are unique in dicts built
by `json.loads`, so first-match agrees with dict semantics). -/
def dlookup (fs : List (String × Json)) (k : String) : Option Json :=
  match fs with
  | [] => none
  | e :: rest => if e.1 = k then some e.2 else dlookup rest k

/-- First-match lookup in the pending-responses table (`Int` keys). -/
def klookup (p : List (Int × List Json)) (k : Int) : Option (List Json) :=
  match p with
  | [] => none
  | e :: rest => if e.1 = k then some e.2 else klookup rest k

/-- Key membership in the pending-responses table, the model of
`k in self.pending_responses`. -/
def containsKey (p : List (Int × List Json)) (k : Int) : Bool :=
  (klookup p k).isSome

/-- Python dict assignment `d[k] = v`: replaces the value of an existing
key in place, appends a new key at the end (insertion order). -/
def setKey (p : List (Int × List Json)) (k : Int) (v : List Json) :
    List (Int × List Json) :=
  if containsKey p k then
    p.map (fun e => if e.1 = k then (k, v) else e)
  else p ++ [(k, v)]

/-- Python `del d[k]`. -/
def delKey (p : List (Int × List Json)) (k : Int) : List (Int × List Json) :=
  p.filter (fun e => !(e.1 = k : Bool))

/-- `self.pending_responses[k].put(msg)`: appends `msg` to the queue of
entry `k` (called only when `k` is a key of the table). -/
def putPending (p : List (Int × List Json)) (k : Int) (msg : Json) :
    List (Int × List Json) :=
  p.map (fun e => if e.1 = k then (e.1, e.2 ++ [msg]) else e)

/-- Python membership `k in v` for a string `k` and a decoded JSON value
`v`: key membership for dicts, substring for strings, element equality
for lists, `TypeError` for non-iterables. -/
def pyIn (k : String) : Json → Except PyExc Bool
  | Json.obj fs => Except.ok (dlookup fs k).isSome
  | Json.str s => Except.ok (if k = "" then true else (s.splitOn k).length != 1)
  | Json.arr l =>
      Except.ok (l.any fun x => match x with
        | Json.str s => s = k
        | _ => false)
  | _ => Except.error (PyExc.typeError "argument not iterable")

/-- Python subscription `v[k]` for a string key `k`: dict lookup
(`KeyError` when absent), `TypeError` on strings, lists and
non-subscriptable values. -/
def pyIndex (k : String) : Json → Except PyExc Json
  | Json.obj fs =>
      match dlookup fs k with
      | some v => Except.ok v
      | none => Except.error (PyExc.keyError k)
  | Json.str _ => Except.error (PyExc.typeError "string indices must be integers")
  | Json.arr _ => Except.error (PyExc.typeError "list indices must be integers")
  | _ => Except.error (PyExc.typeError "object is not subscriptable")

/-- Python iteration `for item in v`: list elements, characters of a
string, keys of a dict, `TypeError` otherwise. -/
def pyIter : Json → Except PyExc (List Json)
  | Json.arr l => Except.ok l
  | Json.str s => Except.ok (s.toList.map fun c => Json.str (String.singleton c))
  | Json.obj fs => Except.ok (fs.map fun e => Json.str e.1)
  | _ => Except.error (PyExc.typeError "object is not iterable")

/-- Python membership `idv in self.pending_responses` where the table has
integer keys: returns the matched key, if any.  Booleans hash-equal the
integers 0 and 1 in Python; strings and `None` are hashable but never
equal an integer key; lists and dicts are unhashable (`TypeError`). -/
def pyKeyIn (idv : Json) (p : List (Int × List Json)) : Except PyExc (Option Int) :=
  match idv with
  | Json.num i => Except.ok (if containsKey p i then some i else none)
  | Json.bool b =>
      let i : Int := if b then 1 else 0
      Except.ok (if containsKey p i then some i else none)
  | Json.str _ => Except.ok none
  | Json.null => Except.ok none
  | Json.arr _ => Except.error (PyExc.typeError "unhashable type: list")
  | Json.obj _ => Except.error (PyExc.typeError "unhashable type: dict")

/-- A single-quote character, used by the model of Python `repr`. -/
def squote : String := String.singleton (Char.ofNat 39)

mutual

/-- Python `repr` of a JSON-decoded value (string escaping inside `repr`
is not reproduced; no claim depends on it). -/
def pyRepr : Json → String
  | Json.null => "None"
  | Json.bool true => "True"
  | Json.bool false => "False"
  | Json.num n => toString n
  | Json.str s => squote ++ s ++ squote
  | Json.arr l => "[" ++ pyReprList l ++ "]"
  | Json.obj fs => "\x7b" ++ pyReprFields fs ++ "\x7d"

/-- Comma-separated `repr` of list elements. -/
def pyReprList : List Json → String
  | [] => ""
  | [j] => pyRepr j
  | j :: rest => pyRepr j ++ ", " ++ pyReprList rest

/-- Comma-separated `repr` of dict entries. -/
def pyReprFields : List (String × Json) → String
  | [] => ""
  | [(k, v)] => squote ++ k ++ squote ++ ": " ++ pyRepr v
  | (k, v) :: rest => squote ++ k ++ squote ++ ": " ++ pyRepr v ++ ", " ++ pyReprFields rest

end

/-- Python `str()` of a JSON-decoded value, as interpolated by f-strings:
the string itself for strings, `repr`-style rendering otherwise. -/
def pyStr : Json → String
  | Json.str s => s
  | j => pyRepr j

/-- Escaping of string contents by `json.dumps` (quote, backslash and
newline; other control characters do not occur in the claims). -/
def jsonEscape (s : String) : String :=
  s.toList.foldr
    (fun c acc =>
      (if c = Char.ofNat 34 then "\\\""
       else if c = Char.ofNat 92 then "\\\\"
       else if c = Char.ofNat 10 then "\\n"
       else String.singleton c) ++ acc)
    ""

/-- A run of `n` spaces, for indented serialization. -/
def spaces (n : Nat) : String := String.mk (List.replicate n ' ')

mutual

/-- Python `json.dumps(v, indent=2)` at a given current indentation. -/
def dumpsAux : Nat → Json → String
  | _, Json.null => "null"
  | _, Json.bool true => "true"
  | _, Json.bool false => "false"
  | _, Json.num n => toString n
  | _, Json.str s => "\"" ++ jsonEscape s ++ "\""
  | _, Json.arr [] => "[]"
  | ind, Json.arr (j :: rest) =>
      "[\n" ++ dumpsItems (ind + 2) (j :: rest) ++ "\n" ++ spaces ind ++ "]"
  | _, Json.obj [] => "\x7b\x7d"
  | ind, Json.obj (f :: rest) =>
      "\x7b\n" ++ dumpsFields (ind + 2) (f :: rest) ++ "\n" ++ spaces ind ++ "\x7d"

/-- Serialized list elements, one per line. -/
def dumpsItems : Nat → List Json → String
  | _, [] => ""
  | ind, [j] => spaces ind ++ dumpsAux ind j
  | ind, j :: rest => spaces ind ++ dumpsAux ind j ++ ",\n" ++ dumpsItems ind rest

/-- Serialized dict entries, one per line. -/
def dumpsFields : Nat → List (String × Json) → String
  | _, [] => ""
  | ind, [(k, v)] => spaces ind ++ "\"" ++ jsonEscape k ++ "\": " ++ dumpsAux ind v
  | ind, (k, v) :: rest =>
      spaces ind ++ "\"" ++ jsonEscape k ++ "\": " ++ dumpsAux ind v ++ ",\n"
        ++ dumpsFields ind rest

end

/-- Python `json.dumps(v, indent=2)`. -/
def dumps (j : Json) : String := dumpsAux 0 j

/-- Python `sep.join(l)` on a list of strings. -/
def pyJoin (sep : String) : List String → String
  | [] => ""
  | [s] => s
  | s :: rest => s ++ sep ++ pyJoin sep rest

/-- Checks that every collected value is a string, the type check
`str.join` performs; returns the strings in order. -/
def allStrings : List Json → Option (List String)
  | [] => some []
  | Json.str s :: rest => (allStrings rest).map (fun l => s :: l)
  | _ :: _ => none

/-- The state of a `PlaywrightSession` object.  `started` models
`self.process is not None` together with its live `stdin`/`stdout` pipes
(set by `start`, lines 65 to 72); `msgId` is `self.msg_id` (line 42);
`pending` is `self.pending_responses` (line 43) with each value the list
of messages put on that queue; `running` is `self.running` (line 46);
`procRunning` records whether the child process is still alive;
`outputDir` is `self.output_dir` (line 47). -/
structure SessionState where
  started : Bool
  msgId : Int
  pending : List (Int × List Json)
  running : Bool
  procRunning : Bool
  outputDir : String

/-- `PlaywrightSession.__init__` (lines 40 to 48): no process, counter
at 1, empty table.  The `mkdir` side effect is outside the model. -/
def initSession (outputDir : String) : SessionState :=
  ⟨false, 1, [], false, false, outputDir⟩

/-- `PlaywrightSession.stop` (lines 221 to 230): clears `running` and,
when a process exists, terminates it (gracefully or by force; both
collapse to `procRunning := false`).  The pending table is untouched. -/
def stop (st : SessionState) : SessionState :=
  if st.started then
    ⟨st.started, st.msgId, st.pending, false, false, st.outputDir⟩
  else
    ⟨st.started, st.msgId, st.pending, false, st.procRunning, st.outputDir⟩

/-- A Python whitespace character, as `str.strip` treats it. -/
def isPyWS (c : Char) : Bool :=
  c = ' ' || c = Char.ofNat 9 || c = Char.ofNat 10 || c = Char.ofNat 13
    || c = Char.ofNat 11 || c = Char.ofNat 12

/-- Python `line.strip()`: removes leading and trailing whitespace. -/
def pyStrip (s : String) : String :=
  String.mk (((s.data.dropWhile isPyWS).reverse.dropWhile isPyWS).reverse)

/-- Python `str.endswith(suffix)`. -/
def pyEndsWith (s suffix : String) : Bool :=
  suffix.data.isSuffixOf s.data

/-- One iteration of the `_read_stdout` loop body (lines 94 to 103) on
one line: strip, skip empty, parse (`none` models `json.JSONDecodeError`,
which is caught), then deliver to the matching pending queue if the
message has an `id` that is a key of the table.  The second component is
an uncaught exception, which kills the pump thread. -/
def readStdoutStep (parse : String → Option Json) (st : SessionState)
    (line : String) : SessionState × Option PyExc :=
  if pyStrip line = "" then (st, none)
  else
    match parse (pyStrip line) with
    | none => (st, none)
    | some msg =>
      match pyIn "id" msg with
      | Except.error e => (st, some e)
      | Except.ok false => (st, none)
      | Except.ok true =>
        match pyIndex "id" msg with
        | Except.error e => (st, some e)
        | Except.ok idv =>
          match pyKeyIn idv st.pending with
          | Except.error e => (st, some e)
          | Except.ok none => (st, none)
          | Except.ok (some k) =>
              (⟨st.started, st.msgId, putPending st.pending k msg,
                st.running, st.procRunning, st.outputDir⟩, none)

/-- The `_read_stdout` loop over the remaining lines of the stream; an
uncaught exception stops the loop (the thread dies), and reaching the end
of the list models the stream closing, after which the function simply
returns. -/
def readStdoutRun (parse : String → Option Json) (st : SessionState) :
    List String → SessionState × Option PyExc
  | [] => (st, none)
  | l :: rest =>
    match (readStdoutStep parse st l).2 with
    | none => readStdoutRun parse (readStdoutStep parse st l).1 rest
    | some e => ((readStdoutStep parse st l).1, some e)

/-- `PlaywrightSession._read_stdout` (lines 91 to 103), including the
initial guard that returns at once when the process or its stdout pipe is
missing (lines 92 to 93). -/
def readStdout (parse : String → Option Json) (st : SessionState)
    (lines : List String) : SessionState × Option PyExc :=
  if st.started then readStdoutRun parse st lines else (st, none)

/-- The session state right after `_send_request` registers its waiter
(lines 131 to 134): the counter is read and incremented, and a fresh
empty queue is stored under the allocated id. -/
def registerState (st : SessionState) : SessionState :=
  ⟨st.started, st.msgId + 1, setKey st.pending st.msgId [], st.running,
    st.procRunning, st.outputDir⟩

/-- The outbound request envelope built on line 136:
`{"jsonrpc": "2.0", "method": method, "params": params, "id": msg_id}`. -/
def requestEnvelope (method : String) (params : Json) (i : Int) : Json :=
  Json.obj [("jsonrpc", Json.str "2.0"), ("method", Json.str method),
    ("params", params), ("id", Json.num i)]

/-- The reply (if any) that the pump delivers to the result slot of
request `i` while the caller blocks: the head of the queue of entry `i`
after the pump has processed `arrivals` from state `st`.  This is what
`response_queue.get(timeout=...)` returns when it does not time out. -/
def firstDelivered (parse : String → Option Json) (st : SessionState)
    (i : Int) (arrivals : List String) : Option Json :=
  match klookup (readStdoutRun parse st arrivals).1.pending i with
  | some (r :: _) => some r
  | _ => none

/-- The outcome of one `_send_request` call: the returned reply or raised
exception, the envelope that was written to the child (if the write
happened), and the session state after the call. -/
structure SendOut where
  result : Except PyExc Json
  written : Option Json
  state : SessionState

/-- `PlaywrightSession._send_request` (lines 125 to 151).  `writeErr`
models an exception raised by `stdin.write`/`flush` (caught on lines 141
to 143: the entry is deleted and a `RuntimeError` raised); `arrivals` are
the stdout lines the pump processes while this caller blocks on its
queue; an empty slot at the end of the wait is `queue.Empty` (lines 149
to 151: the entry is deleted and a `TimeoutError` raised).  On success
the reply is returned and the entry deleted (lines 146 to 148). -/
def sendRequest (st : SessionState) (method : String) (params : Option Json)
    (timeout : Nat) (writeErr : Option String)
    (parse : String → Option Json) (arrivals : List String) : SendOut :=
  if !st.started then
    ⟨Except.error (PyExc.runtimeError "Server not started"), none, st⟩
  else
    let i := st.msgId
    let st0 := registerState st
    let req := requestEnvelope method (params.getD (Json.obj [])) i
    match writeErr with
    | some e =>
        ⟨Except.error (PyExc.runtimeError ("Send failed: " ++ e)), none,
          ⟨st0.started, st0.msgId, delKey st0.pending i, st0.running,
            st0.procRunning, st0.outputDir⟩⟩
    | none =>
        let st1 := (readStdoutRun parse st0 arrivals).1
        match firstDelivered parse st0 i arrivals with
        | some resp =>
            ⟨Except.ok resp, some req,
              ⟨st1.started, st1.msgId, delKey st1.pending i, st1.running,
                st1.procRunning, st1.outputDir⟩⟩
        | none =>
            ⟨Except.error (PyExc.timeoutError
                ("Request timed out after " ++ toString timeout ++ "s")),
              some req,
              ⟨st1.started, st1.msgId, delKey st1.pending i, st1.running,
                st1.procRunning, st1.outputDir⟩⟩

/-- `PlaywrightSession.call_tool` (lines 153 to 155). -/
def callTool (st : SessionState) (name : String) (arguments : Json)
    (timeout : Nat) (writeErr : Option String)
    (parse : String → Option Json) (arrivals : List String) : SendOut :=
  sendRequest st "tools/call"
    (some (Json.obj [("name", Json.str name), ("arguments", arguments)]))
    timeout writeErr parse arrivals

/-- The loop of `_extract_text` (lines 214 to 217): walks the content
items in order; non-dict items raise `AttributeError` at `item.get`;
items whose `type` is the string `text` contribute `item.get("text", "")`. -/
def collectTextVals : List Json → Except PyExc (List Json)
  | [] => Except.ok []
  | it :: rest =>
    match it with
    | Json.obj fs =>
      match dlookup fs "type" with
      | some (Json.str t) =>
        if t = "text" then
          match collectTextVals rest with
          | Except.ok vs => Except.ok ((dlookup fs "text").getD (Json.str "") :: vs)
          | Except.error e => Except.error e
        else collectTextVals rest
      | _ => collectTextVals rest
    | _ => Except.error (PyExc.attributeError "get")

/-- `PlaywrightSession._extract_text` (lines 209 to 219): an `error` key
is surfaced as a formatted string; a `result` with `content` has its text
segments joined by newlines; anything else is serialized with
`json.dumps(result, indent=2)`. -/
def extractText (result : Json) : Except PyExc String :=
  match pyIn "error" result with
  | Except.error e => Except.error e
  | Except.ok true =>
    match pyIndex "error" result with
    | Except.error e => Except.error e
    | Except.ok ev => Except.ok ("Error: " ++ pyStr ev)
  | Except.ok false =>
    match pyIn "result" result with
    | Except.error e => Except.error e
    | Except.ok false => Except.ok (dumps result)
    | Except.ok true =>
      match pyIndex "result" result with
      | Except.error e => Except.error e
      | Except.ok rv =>
        match pyIn "content" rv with
        | Except.error e => Except.error e
        | Except.ok false => Except.ok (dumps result)
        | Except.ok true =>
          match pyIndex "content" rv with
          | Except.error e => Except.error e
          | Except.ok content =>
            match pyIter content with
            | Except.error e => Except.error e
            | Except.ok items =>
              match collectTextVals items with
              | Except.error e => Except.error e
              | Except.ok vals =>
                match allStrings vals with
                | some ss => Except.ok (pyJoin "\n" ss)
                | none => Except.error
                    (PyExc.typeError "sequence item: expected str instance")

/-- Shared shape of the text-returning facade methods: `call_tool`
followed by `_extract_text` on the reply; transport exceptions
propagate. -/
def textToolCall (st : SessionState) (name : String) (arguments : Json)
    (writeErr : Option String) (parse : String → Option Json)
    (arrivals : List String) : Except PyExc String × SessionState :=
  let out := callTool st name arguments 60 writeErr parse arrivals
  match out.result with
  | Except.ok result => (extractText result, out.state)
  | Except.error e => (Except.error e, out.state)

/-- `PlaywrightSession.navigate` (lines 157 to 160). -/
def navigate (st : SessionState) (writeErr : Option String)
    (parse : String → Option Json) (arrivals : List String) (url : String) :
    Except PyExc String × SessionState :=
  textToolCall st "browser_navigate" (Json.obj [("url", Json.str url)])
    writeErr parse arrivals

/-- `PlaywrightSession.snapshot` (lines 162 to 165). -/
def snapshot (st : SessionState) (writeErr : Option String)
    (parse : String → Option Json) (arrivals : List String) :
    Except PyExc String × SessionState :=
  textToolCall st "browser_snapshot" (Json.obj []) writeErr parse arrivals

/-- `PlaywrightSession.click` (lines 167 to 170). -/
def click (st : SessionState) (writeErr : Option String)
    (parse : String → Option Json) (arrivals : List String)
    (element ref : String) : Except PyExc String × SessionState :=
  textToolCall st "browser_click"
    (Json.obj [("element", Json.str element), ("ref", Json.str ref)])
    writeErr parse arrivals

/-- `PlaywrightSession.type_text` (lines 172 to 177). -/
def type_text (st : SessionState) (writeErr : Option String)
    (parse : String → Option Json) (arrivals : List String)
    (element ref text : String) (submit : Bool) :
    Except PyExc String × SessionState :=
  textToolCall st "browser_type"
    (Json.obj [("element", Json.str element), ("ref", Json.str ref),
      ("text", Json.str text), ("submit", Json.bool submit)])
    writeErr parse arrivals

/-- `PlaywrightSession.evaluate` (lines 199 to 202). -/
def evaluate (st : SessionState) (writeErr : Option String)
    (parse : String → Option Json) (arrivals : List String)
    (script : String) : Except PyExc String × SessionState :=
  textToolCall st "browser_evaluate"
    (Json.obj [("function", Json.str script)]) writeErr parse arrivals

/-- `PlaywrightSession.resize` (lines 204 to 207). -/
def resize (st : SessionState) (writeErr : Option String)
    (parse : String → Option Json) (arrivals : List String)
    (width height : Int) : Except PyExc String × SessionState :=
  textToolCall st "browser_resize"
    (Json.obj [("width", Json.num width), ("height", Json.num height)])
    writeErr parse arrivals

/-- The file name computed on lines 181 to 184: an omitted or empty name
defaults to the timestamp `ts` (the value of
`datetime.now().strftime("%Y%m%d_%H%M%S")`), and `.png` is appended
unless already a suffix. -/
def pngName (name : Option String) (ts : String) : String :=
  let n := match name with
    | none => ts
    | some s => if s = "" then ts else s
  if pyEndsWith n ".png" then n else n ++ ".png"

/-- The loop of `screenshot` (lines 190 to 195): the first item whose
`type` is the string `image` has `item.get("data", "")` base64-decoded;
non-dict items raise `AttributeError`; a non-string data value makes
`base64.b64decode` raise `TypeError`. -/
def findImage (b64 : String → List Nat) : List Json → Except PyExc (Option (List Nat))
  | [] => Except.ok none
  | it :: rest =>
    match it with
    | Json.obj fs =>
      match dlookup fs "type" with
      | some (Json.str t) =>
        if t = "image" then
          match (dlookup fs "data").getD (Json.str "") with
          | Json.str d => Except.ok (some (b64 d))
          | _ => Except.error (PyExc.typeError "argument should be str or bytes")
        else findImage b64 rest
      | _ => findImage b64 rest
    | _ => Except.error (PyExc.attributeError "get")

/-- The outcome of one `screenshot` call: returned string or raised
exception, the file written (path and bytes), and the session state. -/
structure ScreenshotOut where
  result : Except PyExc String
  fileWritten : Option (String × List Nat)
  state : SessionState

/-- `PlaywrightSession.screenshot` (lines 179 to 197).  `ts` is the
timestamp string, `b64` the `base64.b64decode` library function (modelled
as total on strings); `filepath.write_bytes` becomes the `fileWritten`
component. -/
def screenshot (st : SessionState) (name : Option String) (fullPage : Bool)
    (ts : String) (b64 : String → List Nat) (writeErr : Option String)
    (parse : String → Option Json) (arrivals : List String) : ScreenshotOut :=
  let filepath := st.outputDir ++ "/" ++ pngName name ts
  let out := callTool st "browser_take_screenshot"
    (Json.obj [("fullPage", Json.bool fullPage)]) 60 writeErr parse arrivals
  match out.result with
  | Except.error e => ⟨Except.error e, none, out.state⟩
  | Except.ok result =>
    match pyIn "result" result with
    | Except.error e => ⟨Except.error e, none, out.state⟩
    | Except.ok false =>
        ⟨Except.ok ("Screenshot failed: " ++ pyStr result), none, out.state⟩
    | Except.ok true =>
      match pyIndex "result" result with
      | Except.error e => ⟨Except.error e, none, out.state⟩
      | Except.ok rv =>
        match pyIn "content" rv with
        | Except.error e => ⟨Except.error e, none, out.state⟩
        | Except.ok false =>
            ⟨Except.ok ("Screenshot failed: " ++ pyStr result), none, out.state⟩
        | Except.ok true =>
          match pyIndex "content" rv with
          | Except.error e => ⟨Except.error e, none, out.state⟩
          | Except.ok content =>
            match pyIter content with
            | Except.error e => ⟨Except.error e, none, out.state⟩
            | Except.ok items =>
              match findImage b64 items with
              | Except.error e => ⟨Except.error e, none, out.state⟩
              | Except.ok (some bytes) =>
                  ⟨Except.ok filepath, some (filepath, bytes), out.state⟩
              | Except.ok none =>
                  ⟨Except.ok ("Screenshot failed: " ++ pyStr result), none,
                    out.state⟩

/-- `PlaywrightSession._initialize` (lines 113 to 123): the handshake
request; an `error` key in the reply raises `RuntimeError`. -/
def handshakeInit (st : SessionState) (writeErr : Option String)
    (parse : String → Option Json) (arrivals : List String) :
    Except PyExc Unit × SessionState :=
  let out := sendRequest st "initialize"
    (some (Json.obj [("protocolVersion", Json.str "2024-11-05"),
      ("capabilities", Json.obj []),
      ("clientInfo", Json.obj [("name", Json.str "playwright-session"),
        ("version", Json.str "1.0.0")])]))
    60 writeErr parse arrivals
  match out.result with
  | Except.error e => (Except.error e, out.state)
  | Except.ok resp =>
    match pyIn "error" resp with
    | Except.error e => (Except.error e, out.state)
    | Except.ok true =>
      match pyIndex "error" resp with
      | Except.error e => (Except.error e, out.state)
      | Except.ok ev =>
          (Except.error (PyExc.runtimeError ("Initialize failed: " ++ pyStr ev)),
            out.state)
    | Except.ok false => (Except.ok (), out.state)

/-- One observable operation on a session: a `_send_request` call (with
its environment), the pump processing one stdout line, or `stop`. -/
inductive SessionOp where
  | send (method : String) (params : Option Json) (timeout : Nat)
      (writeErr : Option String) (arrivals : List String)
  | pumpLine (line : String)
  | stopOp

/-- Effect of one operation on the session state. -/
def runOp (parse : String → Option Json) (st : SessionState) :
    SessionOp → SessionState
  | SessionOp.send m p t w a => (sendRequest st m p t w parse a).state
  | SessionOp.pumpLine l => (readStdout parse st [l]).1
  | SessionOp.stopOp => stop st

/-- The request ids allocated along a trace of operations: each
`_send_request` whose initial guard passes reads the current counter. -/
def allocIds (parse : String → Option Json) (st : SessionState) :
    List SessionOp → List Int
  | [] => []
  | op :: rest =>
    match op with
    | SessionOp.send _ _ _ _ _ =>
        if st.started then st.msgId :: allocIds parse (runOp parse st op) rest
        else allocIds parse (runOp parse st op) rest
    | _ => allocIds parse (runOp parse st op) rest

/-- The consecutive integers `i, i+1, ..., i+n-1`. -/
def consecFrom : Int → Nat → List Int
  | _, 0 => []
  | i, n + 1 => i :: consecFrom (i + 1) n

/-- A reply of the navigate scenario: id `n`, one text segment `s`. -/
def textReply (n : Int) (s : String) : Json :=
  Json.obj [("id", Json.num n),
    ("result", Json.obj [("content",
      Json.arr [Json.obj [("type", Json.str "text"), ("text", Json.str s)]])])]

/-- A concrete stand-in for `json.loads` used to instantiate witnesses:
a handful of named wire lines, everything else unparseable. -/
def testParse : String → Option Json
  | "R1" => some (textReply 1 "snapshot...")
  | "R2" => some (textReply 2 "two")
  | "E1" => some (Json.obj [("id", Json.num 1), ("error", Json.str "boom")])
  | "B1" => some (Json.obj [("id", Json.num 1), ("result", Json.num 5)])
  | "IMG1" => some (Json.obj [("id", Json.num 1),
      ("result", Json.obj [("content", Json.arr [Json.obj
        [("type", Json.str "image"), ("data", Json.str "QUJD")]])])])
  | "D1" => some (Json.obj [("id", Json.num 1)])
  | _ => none

/-- A concrete stand-in for `base64.b64decode` used in witnesses. -/
def testB64 : String → List Nat := fun _ => [65, 66, 67]

/-- A started session with the counter at 1 and no pending entry. -/
def stStarted : SessionState := ⟨true, 1, [], true, true, "out"⟩

/-- A started session with request 1 pending and unresolved. -/
def stPending1 : SessionState := ⟨true, 2, [(1, [])], true, true, "out"⟩

/-- Whether processing stdout line `line` could put a message on the
queue of pending entry `i`: the line parses and the id value of the
parsed message equals `i` under the key equality Python dicts use. -/
def lineTargets (parse : String → Option Json) (line : String) (i : Int) : Bool :=
  if pyStrip line = "" then false
  else
    match parse (pyStrip line) with
    | none => false
    | some msg =>
      match pyIndex "id" msg with
      | Except.ok (Json.num j) => j = i
      | Except.ok (Json.bool b) => (if b then (1 : Int) else 0) = i
      | _ => false

theorem klookup_map_update (p : List (Int × List Json)) (k : Int) (v : List Json)
    (h : klookup p k ≠ none) :
    klookup (p.map (fun e => if e.1 = k then (k, v) else e)) k = some v := by
  induction p with
  | nil => simp [klookup] at h
  | cons e rest ih =>
    simp only [List.map_cons]
    by_cases he : e.1 = k
    · rw [if_pos he]
      simp [klookup]
    · rw [if_neg he]
      simp only [klookup, he, if_false] at h ⊢
      exact ih h

theorem klookup_append_single (p : List (Int × List Json)) (k : Int) (v : List Json)
    (h : klookup p k = none) :
    klookup (p ++ [(k, v)]) k = some v := by
  induction p with
  | nil => simp [klookup]
  | cons e rest ih =>
    by_cases he : e.1 = k
    · simp [klookup, he] at h
    · simp only [klookup, he, if_false] at h
      simp only [List.cons_append, klookup, he, if_false]
      exact ih h

theorem klookup_setKey_self (p : List (Int × List Json)) (k : Int) (v : List Json) :
    klookup (setKey p k v) k = some v := by
  unfold setKey
  by_cases h : containsKey p k = true
  · rw [if_pos h]
    unfold containsKey at h
    exact klookup_map_update p k v (Option.isSome_iff_ne_none.mp h)
  · rw [if_neg h]
    unfold containsKey at h
    exact klookup_append_single p k v
      (Option.not_isSome_iff_eq_none.mp (by simpa using h))

theorem klookup_delKey_self (p : List (Int × List Json)) (k : Int) :
    klookup (delKey p k) k = none := by
  induction p with
  | nil => rfl
  | cons e rest ih =>
    unfold delKey at ih ⊢
    rw [List.filter_cons]
    by_cases he : e.1 = k
    · have : (!decide (e.1 = k)) = false := by simp [he]
      rw [this, if_neg (by simp)]
      exact ih
    · have : (!decide (e.1 = k)) = true := by simp [he]
      rw [if_pos this]
      simp only [klookup, he, if_false]
      exact ih

theorem delKey_of_klookup_none (p : List (Int × List Json)) (k : Int)
    (h : klookup p k = none) : delKey p k = p := by
  induction p with
  | nil => rfl
  | cons e rest ih =>
    by_cases he : e.1 = k
    · simp [klookup, he] at h
    · simp only [klookup, he, if_false] at h
      unfold delKey at ih ⊢
      rw [List.filter_cons]
      have : (!decide (e.1 = k)) = true := by simp [he]
      rw [if_pos this, ih h]

theorem delKey_setKey_fresh (p : List (Int × List Json)) (k : Int) (v : List Json)
    (h : containsKey p k = false) : delKey (setKey p k v) k = p := by
  unfold containsKey at h
  have hnone : klookup p k = none := Option.not_isSome_iff_eq_none.mp (by simp [h])
  unfold setKey
  have : containsKey p k ≠ true := by unfold containsKey; simp [hnone]
  rw [if_neg this]
  unfold delKey
  rw [List.filter_append]
  have h1 : List.filter (fun e => !decide (e.1 = k)) p = p := by
    have := delKey_of_klookup_none p k hnone
    unfold delKey at this
    exact this
  rw [h1]
  simp

theorem klookup_putPending_ne (p : List (Int × List Json)) (k i : Int) (m : Json)
    (h : k ≠ i) : klookup (putPending p k m) i = klookup p i := by
  induction p with
  | nil => rfl
  | cons e rest ih =>
    unfold putPending at ih ⊢
    simp only [List.map_cons]
    by_cases he : e.1 = k
    · have hne : e.1 ≠ i := by rw [he]; exact h
      rw [if_pos he]
      simp only [klookup, hne, if_false]
      exact ih
    · rw [if_neg he]
      simp only [klookup]
      by_cases hei : e.1 = i
      · rw [if_pos hei, if_pos hei]
      · rw [if_neg hei, if_neg hei]
        exact ih

theorem klookup_putPending_isSome (p : List (Int × List Json)) (k i : Int) (m : Json) :
    (klookup (putPending p k m) i).isSome = (klookup p i).isSome := by
  induction p with
  | nil => rfl
  | cons e rest ih =>
    unfold putPending at ih ⊢
    simp only [List.map_cons]
    by_cases he : e.1 = k
    · rw [if_pos he]
      simp only [klookup]
      by_cases hei : e.1 = i
      · rw [if_pos hei, if_pos hei]
        rfl
      · rw [if_neg hei, if_neg hei]
        exact ih
    · rw [if_neg he]
      simp only [klookup]
      by_cases hei : e.1 = i
      · rw [if_pos hei, if_pos hei]
      · rw [if_neg hei, if_neg hei]
        exact ih

theorem containsKey_putPending (p : List (Int × List Json)) (k i : Int) (m : Json) :
    containsKey (putPending p k m) i = containsKey p i := by
  unfold containsKey
  exact klookup_putPending_isSome p k i m

theorem readStdoutStep_cases (parse : String → Option Json) (st : SessionState)
    (line : String) :
    (readStdoutStep parse st line).1 = st ∨
    ∃ msg k, parse (pyStrip line) = some msg ∧ lineTargets parse line k = true ∧
      (readStdoutStep parse st line).1 =
        ⟨st.started, st.msgId, putPending st.pending k msg, st.running,
          st.procRunning, st.outputDir⟩ := by
  by_cases h0 : pyStrip line = ""
  · left
    simp [readStdoutStep, h0]
  · cases hp : parse (pyStrip line) with
    | none => left; simp [readStdoutStep, h0, hp]
    | some msg =>
      cases hin : pyIn "id" msg with
      | error e => left; simp [readStdoutStep, h0, hp, hin]
      | ok b =>
        cases b with
        | false => left; simp [readStdoutStep, h0, hp, hin]
        | true =>
          cases hidx : pyIndex "id" msg with
          | error e => left; simp [readStdoutStep, h0, hp, hin, hidx]
          | ok idv =>
            cases hkey : pyKeyIn idv st.pending with
            | error e => left; simp [readStdoutStep, h0, hp, hin, hidx, hkey]
            | ok ko =>
              cases ko with
              | none => left; simp [readStdoutStep, h0, hp, hin, hidx, hkey]
              | some k =>
                right
                refine ⟨msg, k, rfl, ?_, ?_⟩
                · unfold lineTargets
                  rw [if_neg h0, hp]
                  dsimp only
                  rw [hidx]
                  cases idv with
                  | num j =>
                    by_cases hc : containsKey st.pending j = true
                    · simp only [pyKeyIn, hc, if_true] at hkey
                      have : j = k := by
                        injection hkey with h1
                        injection h1
                      simp [this]
                    · simp [pyKeyIn, hc] at hkey
                  | bool b =>
                    by_cases hc :
                        containsKey st.pending (if b then (1 : Int) else 0) = true
                    · simp only [pyKeyIn] at hkey
                      rw [if_pos hc] at hkey
                      have : (if b then (1 : Int) else 0) = k := by
                        injection hkey with h1
                        injection h1
                      simp [this]
                    · simp only [pyKeyIn] at hkey
                      rw [if_neg hc] at hkey
                      simp at hkey
                  | str s => simp [pyKeyIn] at hkey
                  | null => simp [pyKeyIn] at hkey
                  | arr l => simp [pyKeyIn] at hkey
                  | obj fs => simp [pyKeyIn] at hkey
                · simp [readStdoutStep, h0, hp, hin, hidx, hkey]

theorem readStdoutStep_fields (parse : String → Option Json) (st : SessionState)
    (line : String) :
    (readStdoutStep parse st line).1.started = st.started ∧
    (readStdoutStep parse st line).1.msgId = st.msgId ∧
    (readStdoutStep parse st line).1.running = st.running ∧
    (readStdoutStep parse st line).1.procRunning = st.procRunning ∧
    (readStdoutStep parse st line).1.outputDir = st.outputDir := by
  rcases readStdoutStep_cases parse st line with h | ⟨msg, k, _, _, h⟩ <;>
    rw [h] <;> exact ⟨rfl, rfl, rfl, rfl, rfl⟩

theorem readStdoutStep_containsKey (parse : String → Option Json)
    (st : SessionState) (line : String) (i : Int) :
    containsKey (readStdoutStep parse st line).1.pending i
      = containsKey st.pending i := by
  rcases readStdoutStep_cases parse st line with h | ⟨msg, k, _, _, h⟩
  · rw [h]
  · rw [h]
    exact containsKey_putPending st.pending k i msg

theorem readStdoutStep_klookup (parse : String → Option Json) (st : SessionState)
    (line : String) (i : Int) (h : lineTargets parse line i = false) :
    klookup (readStdoutStep parse st line).1.pending i = klookup st.pending i := by
  rcases readStdoutStep_cases parse st line with he | ⟨msg, k, _, ht, he⟩
  · rw [he]
  · rw [he]
    apply klookup_putPending_ne
    intro hki
    rw [hki] at ht
    rw [h] at ht
    exact Bool.false_ne_true ht

theorem readStdoutRun_fields (parse : String → Option Json) (lines : List String) :
    ∀ st : SessionState,
    (readStdoutRun parse st lines).1.started = st.started ∧
    (readStdoutRun parse st lines).1.msgId = st.msgId ∧
    (readStdoutRun parse st lines).1.running = st.running ∧
    (readStdoutRun parse st lines).1.procRunning = st.procRunning ∧
    (readStdoutRun parse st lines).1.outputDir = st.outputDir := by
  induction lines with
  | nil => intro st; exact ⟨rfl, rfl, rfl, rfl, rfl⟩
  | cons l rest ih =>
    intro st
    unfold readStdoutRun
    cases herr : (readStdoutStep parse st l).2 with
    | none =>
      dsimp only
      obtain ⟨h1, h2, h3, h4, h5⟩ := readStdoutStep_fields parse st l
      obtain ⟨g1, g2, g3, g4, g5⟩ := ih (readStdoutStep parse st l).1
      exact ⟨g1.trans h1, g2.trans h2, g3.trans h3, g4.trans h4, g5.trans h5⟩
    | some e =>
      dsimp only
      exact readStdoutStep_fields parse st l

theorem readStdoutRun_containsKey (parse : String → Option Json)
    (lines : List String) : ∀ (st : SessionState) (i : Int),
    containsKey (readStdoutRun parse st lines).1.pending i
      = containsKey st.pending i := by
  induction lines with
  | nil => intro st i; rfl
  | cons l rest ih =>
    intro st i
    unfold readStdoutRun
    cases herr : (readStdoutStep parse st l).2 with
    | none =>
      dsimp only
      exact (ih (readStdoutStep parse st l).1 i).trans
        (readStdoutStep_containsKey parse st l i)
    | some e =>
      dsimp only
      exact readStdoutStep_containsKey parse st l i

theorem readStdoutRun_klookup (parse : String → Option Json) (lines : List String) :
    ∀ (st : SessionState) (i : Int),
    (lines.all fun l => !(lineTargets parse l i)) = true →
    klookup (readStdoutRun parse st lines).1.pending i = klookup st.pending i := by
  induction lines with
  | nil => intro st i _; rfl
  | cons l rest ih =>
    intro st i h
    rw [List.all_cons, Bool.and_eq_true] at h
    obtain ⟨h1, h2⟩ := h
    have hl : lineTargets parse l i = false := by
      cases hb : lineTargets parse l i
      · rfl
      · rw [hb] at h1; exact absurd h1 (by simp)
    unfold readStdoutRun
    cases herr : (readStdoutStep parse st l).2 with
    | none =>
      dsimp only
      exact (ih (readStdoutStep parse st l).1 i h2).trans
        (readStdoutStep_klookup parse st l i hl)
    | some e =>
      dsimp only
      exact readStdoutStep_klookup parse st l i hl

/-- The session state `_send_request` leaves behind when the write
succeeded: the pump has processed `arrivals` past the registered state,
and the entry of the allocated id has been deleted. -/
def postSendState (parse : String → Option Json) (st : SessionState)
    (arrivals : List String) : SessionState :=
  ⟨(readStdoutRun parse (registerState st) arrivals).1.started,
    (readStdoutRun parse (registerState st) arrivals).1.msgId,
    delKey (readStdoutRun parse (registerState st) arrivals).1.pending st.msgId,
    (readStdoutRun parse (registerState st) arrivals).1.running,
    (readStdoutRun parse (registerState st) arrivals).1.procRunning,
    (readStdoutRun parse (registerState st) arrivals).1.outputDir⟩

theorem sendRequest_not_started (st : SessionState) (m : String)
    (p : Option Json) (t : Nat) (w : Option String)
    (parse : String → Option Json) (a : List String)
    (h : st.started = false) :
    sendRequest st m p t w parse a =
      ⟨Except.error (PyExc.runtimeError "Server not started"), none, st⟩ := by
  simp [sendRequest, h]

theorem sendRequest_writeErr (st : SessionState) (m : String) (p : Option Json)
    (t : Nat) (e : String) (parse : String → Option Json) (a : List String)
    (hst : st.started = true) :
    sendRequest st m p t (some e) parse a =
      ⟨Except.error (PyExc.runtimeError ("Send failed: " ++ e)), none,
        ⟨st.started, st.msgId + 1,
          delKey (setKey st.pending st.msgId []) st.msgId,
          st.running, st.procRunning, st.outputDir⟩⟩ := by
  simp [sendRequest, hst, registerState]

theorem sendRequest_delivered (st : SessionState) (m : String) (p : Option Json)
    (t : Nat) (parse : String → Option Json) (arrivals : List String) (r : Json)
    (hst : st.started = true)
    (hd : firstDelivered parse (registerState st) st.msgId arrivals = some r) :
    sendRequest st m p t none parse arrivals =
      ⟨Except.ok r, some (requestEnvelope m (p.getD (Json.obj [])) st.msgId),
        postSendState parse st arrivals⟩ := by
  simp [sendRequest, hst, hd, postSendState]

theorem sendRequest_timeout (st : SessionState) (m : String) (p : Option Json)
    (t : Nat) (parse : String → Option Json) (arrivals : List String)
    (hst : st.started = true)
    (hd : firstDelivered parse (registerState st) st.msgId arrivals = none) :
    sendRequest st m p t none parse arrivals =
      ⟨Except.error (PyExc.timeoutError
          ("Request timed out after " ++ toString t ++ "s")),
        some (requestEnvelope m (p.getD (Json.obj [])) st.msgId),
        postSendState parse st arrivals⟩ := by
  simp [sendRequest, hst, hd, postSendState]

theorem sendRequest_state_pending_self (st : SessionState) (m : String)
    (p : Option Json) (t : Nat) (w : Option String)
    (parse : String → Option Json) (a : List String)
    (hst : st.started = true) :
    klookup (sendRequest st m p t w parse a).state.pending st.msgId = none := by
  cases w with
  | some e =>
    rw [sendRequest_writeErr st m p t e parse a hst]
    exact klookup_delKey_self _ _
  | none =>
    cases hd : firstDelivered parse (registerState st) st.msgId a with
    | some r =>
      rw [sendRequest_delivered st m p t parse a r hst hd]
      exact klookup_delKey_self _ _
    | none =>
      rw [sendRequest_timeout st m p t parse a hst hd]
      exact klookup_delKey_self _ _

theorem sendRequest_state_started (st : SessionState) (m : String)
    (p : Option Json) (t : Nat) (w : Option String)
    (parse : String → Option Json) (a : List String) :
    (sendRequest st m p t w parse a).state.started = st.started := by
  cases hst : st.started with
  | false =>
    rw [sendRequest_not_started st m p t w parse a hst]
    exact hst
  | true =>
    cases w with
    | some e =>
      rw [sendRequest_writeErr st m p t e parse a hst]
      exact hst
    | none =>
      have hrun := (readStdoutRun_fields parse a (registerState st)).1
      cases hd : firstDelivered parse (registerState st) st.msgId a with
      | some r =>
        rw [sendRequest_delivered st m p t parse a r hst hd]
        exact hrun.trans hst
      | none =>
        rw [sendRequest_timeout st m p t parse a hst hd]
        exact hrun.trans hst

theorem sendRequest_state_msgId (st : SessionState) (m : String)
    (p : Option Json) (t : Nat) (w : Option String)
    (parse : String → Option Json) (a : List String)
    (hst : st.started = true) :
    (sendRequest st m p t w parse a).state.msgId = st.msgId + 1 := by
  cases w with
  | some e => rw [sendRequest_writeErr st m p t e parse a hst]
  | none =>
    have hrun := (readStdoutRun_fields parse a (registerState st)).2.1
    cases hd : firstDelivered parse (registerState st) st.msgId a with
    | some r =>
      rw [sendRequest_delivered st m p t parse a r hst hd]
      exact hrun
    | none =>
      rw [sendRequest_timeout st m p t parse a hst hd]
      exact hrun

theorem textToolCall_delivered (st : SessionState) (name : String) (args : Json)
    (parse : String → Option Json) (arrivals : List String) (r : Json)
    (hst : st.started = true)
    (hd : firstDelivered parse (registerState st) st.msgId arrivals = some r) :
    (textToolCall st name args none parse arrivals).1 = extractText r := by
  unfold textToolCall callTool
  rw [sendRequest_delivered st "tools/call"
    (some (Json.obj [("name", Json.str name), ("arguments", args)]))
    60 parse arrivals r hst hd]

theorem textToolCall_writeErr (st : SessionState) (name : String) (args : Json)
    (e : String) (parse : String → Option Json) (arrivals : List String)
    (hst : st.started = true) :
    (textToolCall st name args (some e) parse arrivals).1 =
      Except.error (PyExc.runtimeError ("Send failed: " ++ e)) := by
  unfold textToolCall callTool
  rw [sendRequest_writeErr st "tools/call"
    (some (Json.obj [("name", Json.str name), ("arguments", args)]))
    60 e parse arrivals hst]

theorem textToolCall_timeout (st : SessionState) (name : String) (args : Json)
    (parse : String → Option Json) (arrivals : List String)
    (hst : st.started = true)
    (hd : firstDelivered parse (registerState st) st.msgId arrivals = none) :
    (textToolCall st name args none parse arrivals).1 =
      Except.error (PyExc.timeoutError ("Request timed out after 60s")) := by
  unfold textToolCall callTool
  rw [sendRequest_timeout st "tools/call"
    (some (Json.obj [("name", Json.str name), ("arguments", args)]))
    60 parse arrivals hst hd]
  rfl

theorem extractText_error (fs : List (String × Json)) (e : Json)
    (h : dlookup fs "error" = some e) :
    extractText (Json.obj fs) = Except.ok ("Error: " ++ pyStr e) := by
  simp [extractText, pyIn, pyIndex, h]

theorem extractText_dumps_of_no_result (fs : List (String × Json))
    (he : dlookup fs "error" = none) (hr : dlookup fs "result" = none) :
    extractText (Json.obj fs) = Except.ok (dumps (Json.obj fs)) := by
  simp [extractText, pyIn, he, hr]

theorem extractText_dumps_of_no_content (fs rv : List (String × Json))
    (he : dlookup fs "error" = none)
    (hr : dlookup fs "result" = some (Json.obj rv))
    (hc : dlookup rv "content" = none) :
    extractText (Json.obj fs) = Except.ok (dumps (Json.obj fs)) := by
  simp [extractText, pyIn, pyIndex, he, hr, hc]

/-- A content segment the text-extraction loop handles without raising:
a dict whose `text` value, when its `type` is `text` and the field is
present, is a string (so that `str.join` accepts it). -/
def segWellFormed : Json → Bool
  | Json.obj fs =>
    (match dlookup fs "type" with
     | some (Json.str t) =>
       if t = "text" then
         match dlookup fs "text" with
         | some (Json.str _) => true
         | some _ => false
         | none => true
       else true
     | _ => true)
  | _ => false

/-- Written from the specification, for comparison with the code: the
`text` fields of the content segments whose `type` is `text`, in order
(an absent `text` field contributes the empty string). -/
def specTextSegments : List Json → List String
  | [] => []
  | Json.obj fs :: rest =>
    (match dlookup fs "type" with
     | some (Json.str t) =>
       if t = "text" then
         (match dlookup fs "text" with
          | some (Json.str s) => s
          | _ => "") :: specTextSegments rest
       else specTextSegments rest
     | _ => specTextSegments rest)
  | _ :: rest => specTextSegments rest

theorem collectTextVals_spec (segs : List Json)
    (hw : segs.all segWellFormed = true) :
    collectTextVals segs = Except.ok ((specTextSegments segs).map Json.str) := by
  induction segs with
  | nil => rfl
  | cons it rest ih =>
    rw [List.all_cons, Bool.and_eq_true] at hw
    obtain ⟨h1, h2⟩ := hw
    cases it with
    | obj fs =>
      cases ht : dlookup fs "type" with
      | none => simp [collectTextVals, specTextSegments, ht, ih h2]
      | some tv =>
        cases tv with
        | str t =>
          by_cases htt : t = "text"
          · cases hx : dlookup fs "text" with
            | none =>
              simp [collectTextVals, specTextSegments, ht, htt, hx, ih h2,
                Option.getD]
            | some xv =>
              cases xv with
              | str s =>
                simp [collectTextVals, specTextSegments, ht, htt, hx, ih h2,
                  Option.getD]
              | null => simp [segWellFormed, ht, htt, hx] at h1
              | bool b => simp [segWellFormed, ht, htt, hx] at h1
              | num n => simp [segWellFormed, ht, htt, hx] at h1
              | arr l => simp [segWellFormed, ht, htt, hx] at h1
              | obj o => simp [segWellFormed, ht, htt, hx] at h1
          · simp [collectTextVals, specTextSegments, ht, htt, ih h2]
        | null => simp [collectTextVals, specTextSegments, ht, ih h2]
        | bool b => simp [collectTextVals, specTextSegments, ht, ih h2]
        | num n => simp [collectTextVals, specTextSegments, ht, ih h2]
        | arr l => simp [collectTextVals, specTextSegments, ht, ih h2]
        | obj o => simp [collectTextVals, specTextSegments, ht, ih h2]
    | null => simp [segWellFormed] at h1
    | bool b => simp [segWellFormed] at h1
    | num n => simp [segWellFormed] at h1
    | str s => simp [segWellFormed] at h1
    | arr l => simp [segWellFormed] at h1

theorem allStrings_map_str (ss : List String) :
    allStrings (ss.map Json.str) = some ss := by
  induction ss with
  | nil => rfl
  | cons s rest ih => simp [allStrings, ih]

theorem extractText_content (fs rv : List (String × Json)) (segs : List Json)
    (he : dlookup fs "error" = none)
    (hr : dlookup fs "result" = some (Json.obj rv))
    (hc : dlookup rv "content" = some (Json.arr segs))
    (hw : segs.all segWellFormed = true) :
    extractText (Json.obj fs) =
      Except.ok (pyJoin "\n" (specTextSegments segs)) := by
  simp [extractText, pyIn, pyIndex, pyIter, he, hr, hc,
    collectTextVals_spec segs hw, allStrings_map_str]

/-- A content segment the screenshot loop passes over: a dict whose
`type` is not the string `image`. -/
def nonImageSeg : Json → Bool
  | Json.obj fs =>
    (match dlookup fs "type" with
     | some (Json.str t) => !(t = "image" : Bool)
     | _ => true)
  | _ => false

theorem findImage_none (b64 : String → List Nat) (segs : List Json)
    (h : segs.all nonImageSeg = true) : findImage b64 segs = Except.ok none := by
  induction segs with
  | nil => rfl
  | cons it rest ih =>
    rw [List.all_cons, Bool.and_eq_true] at h
    obtain ⟨h1, h2⟩ := h
    cases it with
    | obj fs =>
      cases ht : dlookup fs "type" with
      | none => simp [findImage, ht, ih h2]
      | some tv =>
        cases tv with
        | str t =>
          have hni : ¬ t = "image" := by
            simp [nonImageSeg, ht] at h1
            exact h1
          simp [findImage, ht, hni, ih h2]
        | null => simp [findImage, ht, ih h2]
        | bool b => simp [findImage, ht, ih h2]
        | num n => simp [findImage, ht, ih h2]
        | arr l => simp [findImage, ht, ih h2]
        | obj o => simp [findImage, ht, ih h2]
    | null => simp [nonImageSeg] at h1
    | bool b => simp [nonImageSeg] at h1
    | num n => simp [nonImageSeg] at h1
    | str s => simp [nonImageSeg] at h1
    | arr l => simp [nonImageSeg] at h1

theorem findImage_first (b64 : String → List Nat) (d : String)
    (pre rest : List Json) (h : pre.all nonImageSeg = true) :
    findImage b64 (pre ++
      Json.obj [("type", Json.str "image"), ("data", Json.str d)] :: rest) =
      Except.ok (some (b64 d)) := by
  induction pre with
  | nil => rfl
  | cons it pre1 ih =>
    rw [List.all_cons, Bool.and_eq_true] at h
    obtain ⟨h1, h2⟩ := h
    cases it with
    | obj fs =>
      cases ht : dlookup fs "type" with
      | none => simpa [findImage, ht] using ih h2
      | some tv =>
        cases tv with
        | str t =>
          have hni : ¬ t = "image" := by
            simp [nonImageSeg, ht] at h1
            exact h1
          simpa [findImage, ht, hni] using ih h2
        | null => simpa [findImage, ht] using ih h2
        | bool b => simpa [findImage, ht] using ih h2
        | num n => simpa [findImage, ht] using ih h2
        | arr l => simpa [findImage, ht] using ih h2
        | obj o => simpa [findImage, ht] using ih h2
    | null => simp [nonImageSeg] at h1
    | bool b => simp [nonImageSeg] at h1
    | num n => simp [nonImageSeg] at h1
    | str s => simp [nonImageSeg] at h1
    | arr l => simp [nonImageSeg] at h1

theorem stop_pending (st : SessionState) : (stop st).pending = st.pending := by
  unfold stop
  split <;> rfl

theorem stop_msgId (st : SessionState) : (stop st).msgId = st.msgId := by
  unfold stop
  split <;> rfl

theorem stop_started (st : SessionState) : (stop st).started = st.started := by
  unfold stop
  split <;> rfl

theorem readStdout_msgId (parse : String → Option Json) (st : SessionState)
    (lines : List String) : (readStdout parse st lines).1.msgId = st.msgId := by
  unfold readStdout
  split
  · exact (readStdoutRun_fields parse lines st).2.1
  · rfl

theorem readStdout_started (parse : String → Option Json) (st : SessionState)
    (lines : List String) : (readStdout parse st lines).1.started = st.started := by
  unfold readStdout
  split
  · exact (readStdoutRun_fields parse lines st).1
  · rfl

theorem runOp_msgId_le (parse : String → Option Json) (st : SessionState)
    (op : SessionOp) : st.msgId ≤ (runOp parse st op).msgId := by
  cases op with
  | send m p t w a =>
    show st.msgId ≤ (sendRequest st m p t w parse a).state.msgId
    cases hst : st.started with
    | true =>
      rw [sendRequest_state_msgId st m p t w parse a hst]
      omega
    | false =>
      rw [sendRequest_not_started st m p t w parse a hst]
  | pumpLine l =>
    show st.msgId ≤ (readStdout parse st [l]).1.msgId
    rw [readStdout_msgId]
  | stopOp =>
    show st.msgId ≤ (stop st).msgId
    rw [stop_msgId]

theorem runOp_started (parse : String → Option Json) (st : SessionState)
    (op : SessionOp) : (runOp parse st op).started = st.started := by
  cases op with
  | send m p t w a => exact sendRequest_state_started st m p t w parse a
  | pumpLine l => exact readStdout_started parse st [l]
  | stopOp => exact stop_started st

theorem allocIds_lb (parse : String → Option Json) (ops : List SessionOp) :
    ∀ (st : SessionState) (x : Int), x ∈ allocIds parse st ops →
      st.msgId ≤ x := by
  induction ops with
  | nil => intro st x h; simp [allocIds] at h
  | cons op rest ih =>
    intro st x h
    have hmono := runOp_msgId_le parse st op
    cases op with
    | send m p t w a =>
      unfold allocIds at h
      by_cases hst : st.started = true
      · rw [if_pos hst] at h
        rcases List.mem_cons.mp h with h1 | h1
        · exact le_of_eq h1.symm
        · exact le_trans hmono (ih _ x h1)
      · rw [if_neg hst] at h
        exact le_trans hmono (ih _ x h)
    | pumpLine l =>
      unfold allocIds at h
      exact le_trans hmono (ih _ x h)
    | stopOp =>
      unfold allocIds at h
      exact le_trans hmono (ih _ x h)

theorem allocIds_chain (parse : String → Option Json) (ops : List SessionOp) :
    ∀ st : SessionState, List.Chain' (fun a b => a < b) (allocIds parse st ops) := by
  induction ops with
  | nil => intro st; simp [allocIds]
  | cons op rest ih =>
    intro st
    cases op with
    | send m p t w a =>
      unfold allocIds
      by_cases hst : st.started = true
      · rw [if_pos hst, List.chain'_cons']
        constructor
        · intro y hy
          have hmem := List.mem_of_mem_head? hy
          have hlb := allocIds_lb parse rest _ y hmem
          have hmsg : (runOp parse st (SessionOp.send m p t w a)).msgId
              = st.msgId + 1 :=
            sendRequest_state_msgId st m p t w parse a hst
          rw [hmsg] at hlb
          omega
        · exact ih _
      · rw [if_neg hst]
        exact ih _
    | pumpLine l =>
      unfold allocIds
      exact ih _
    | stopOp =>
      unfold allocIds
      exact ih _

theorem allocIds_replicate (parse : String → Option Json) (m : String)
    (p : Option Json) (t : Nat) (w : Option String) (a : List String) :
    ∀ (n : Nat) (st : SessionState), st.started = true →
      allocIds parse st (List.replicate n (SessionOp.send m p t w a)) =
        consecFrom st.msgId n := by
  intro n
  induction n with
  | zero => intro st _; rfl
  | succ k ih =>
    intro st hst
    rw [List.replicate_succ]
    unfold allocIds
    rw [if_pos hst]
    have h1 : (runOp parse st (SessionOp.send m p t w a)).started = true := by
      show (sendRequest st m p t w parse a).state.started = true
      rw [sendRequest_state_started]
      exact hst
    rw [ih _ h1]
    have h3 : (runOp parse st (SessionOp.send m p t w a)).msgId = st.msgId + 1 :=
      sendRequest_state_msgId st m p t w parse a hst
    rw [h3]
    rfl

theorem dumps_obj_ne_empty (fs : List (String × Json)) :
    dumps (Json.obj fs) ≠ "" := by
  cases fs with
  | nil => decide
  | cons f rest =>
    intro h
    have h2 : (dumps (Json.obj (f :: rest))).length = 0 := by rw [h]; rfl
    unfold dumps dumpsAux at h2
    rw [String.length_append, String.length_append, String.length_append,
      String.length_append] at h2
    have h3 : ("\x7b\n" : String).length = 2 := rfl
    rw [h3] at h2
    omega

/-- C1: resolve-once plus drop-if-unknown.  First conjunct: an inbound
message that is a JSON object with no `id`, or whose integer id is not
currently a key of the pending table (duplicate, post-timeout straggler,
or unsolicited notification), leaves the whole session state — the table
and every result slot — unchanged, and raises nothing.  Second conjunct:
every completed `_send_request` call has removed the entry of its
allocated id from the table (on the success, timeout and send-failure
paths alike), so the removal happens exactly once and, by the first
conjunct, any later message bearing that id has no effect. -/
theorem spec_c1_resolve_once_drop_unknown :
    (∀ (parse : String → Option Json) (st : SessionState) (line : String)
        (fs : List (String × Json)),
      pyStrip line ≠ "" → parse (pyStrip line) = some (Json.obj fs) →
      (dlookup fs "id" = none ∨
        ∃ i : Int, dlookup fs "id" = some (Json.num i) ∧
          containsKey st.pending i = false) →
      readStdoutStep parse st line = (st, none)) ∧
    (∀ (st : SessionState) (m : String) (p : Option Json) (t : Nat)
        (w : Option String) (parse : String → Option Json) (a : List String),
      st.started = true →
      klookup (sendRequest st m p t w parse a).state.pending st.msgId
        = none) := by
  constructor
  · intro parse st line fs h0 hp hid
    rcases hid with hid | ⟨i, hid, hck⟩
    · simp [readStdoutStep, h0, hp, pyIn, hid]
    · simp [readStdoutStep, h0, hp, pyIn, pyIndex, pyKeyIn, hid, hck]
  · intro st m p t w parse a hst
    exact sendRequest_state_pending_self st m p t w parse a hst

/-- Witness for C1: a reply for id 2 arriving while only id 1 is pending
is dropped without any effect, and a completed send has no entry left. -/
theorem spec_c1_witness :
    readStdoutStep testParse stPending1 "R2" = (stPending1, none) ∧
    klookup (sendRequest stStarted "tools/call" none 60 none testParse
        []).state.pending stStarted.msgId = none :=
  ⟨spec_c1_resolve_once_drop_unknown.1 testParse stPending1 "R2"
      [("id", Json.num 2), ("result", Json.obj [("content",
        Json.arr [Json.obj [("type", Json.str "text"),
          ("text", Json.str "two")]])])]
      (by decide) rfl (Or.inr ⟨2, rfl, rfl⟩),
    spec_c1_resolve_once_drop_unknown.2 stStarted "tools/call" none 60 none
      testParse [] rfl⟩

/-- C2: when no reply reaches the result slot of the allocated id within
the wait, `_send_request` raises `TimeoutError` mentioning the timeout,
and the entry of the allocated id has been removed from the table. -/
theorem spec_c2_timeout_removes_entry
    (st : SessionState) (m : String) (p : Option Json) (t : Nat)
    (parse : String → Option Json) (arrivals : List String)
    (hst : st.started = true)
    (hnone : firstDelivered parse (registerState st) st.msgId arrivals = none) :
    (sendRequest st m p t none parse arrivals).result =
      Except.error (PyExc.timeoutError
        ("Request timed out after " ++ toString t ++ "s")) ∧
    klookup (sendRequest st m p t none parse arrivals).state.pending st.msgId
      = none := by
  rw [sendRequest_timeout st m p t parse arrivals hst hnone]
  exact ⟨rfl, klookup_delKey_self _ _⟩

/-- Witness for C2: a send with no arrivals at all times out and leaves
no entry. -/
theorem spec_c2_witness :
    (sendRequest stStarted "tools/call" none 60 none testParse []).result =
      Except.error (PyExc.timeoutError
        ("Request timed out after " ++ toString 60 ++ "s")) ∧
    klookup (sendRequest stStarted "tools/call" none 60 none testParse
        []).state.pending stStarted.msgId = none :=
  spec_c2_timeout_removes_entry stStarted "tools/call" none 60 testParse []
    rfl rfl

/-- C3: when the write to the child raises, `_send_request` raises
`RuntimeError` with a send-failure message, the freshly registered entry
of the allocated id is removed, and — when the id was fresh — the table
is exactly what it was before the call: no dangling waiter remains. -/
theorem spec_c3_sendfail_removes_entry
    (st : SessionState) (m : String) (p : Option Json) (t : Nat) (e : String)
    (parse : String → Option Json) (arrivals : List String)
    (hst : st.started = true) :
    (sendRequest st m p t (some e) parse arrivals).result =
      Except.error (PyExc.runtimeError ("Send failed: " ++ e)) ∧
    klookup (sendRequest st m p t (some e) parse arrivals).state.pending
      st.msgId = none ∧
    (containsKey st.pending st.msgId = false →
      (sendRequest st m p t (some e) parse arrivals).state.pending
        = st.pending) := by
  rw [sendRequest_writeErr st m p t e parse arrivals hst]
  exact ⟨rfl, klookup_delKey_self _ _,
    fun hfresh => delKey_setKey_fresh st.pending st.msgId [] hfresh⟩

/-- Witness for C3 at a concrete failing write. -/
theorem spec_c3_witness :
    (sendRequest stStarted "tools/call" none 60 (some "broken pipe") testParse
        []).result =
      Except.error (PyExc.runtimeError ("Send failed: " ++ "broken pipe")) ∧
    klookup (sendRequest stStarted "tools/call" none 60 (some "broken pipe")
        testParse []).state.pending stStarted.msgId = none ∧
    (containsKey stStarted.pending stStarted.msgId = false →
      (sendRequest stStarted "tools/call" none 60 (some "broken pipe")
        testParse []).state.pending = stStarted.pending) :=
  spec_c3_sendfail_removes_entry stStarted "tools/call" none 60 "broken pipe"
    testParse [] rfl

/-- C4: request ids are monotonically increasing.  The constructor sets
the counter to 1; every send that passes the guard bumps the counter by
exactly 1 and stamps the pre-call counter value as the `id` field of the
envelope it writes; along any trace of operations the allocated ids are
strictly increasing; and a run of sends with no other operations in
between allocates consecutive integers. -/
theorem spec_c4_monotonic_ids :
    (∀ d : String, (initSession d).msgId = 1) ∧
    (∀ (st : SessionState) (m : String) (p : Option Json) (t : Nat)
        (w : Option String) (parse : String → Option Json) (a : List String),
      st.started = true →
      (sendRequest st m p t w parse a).state.msgId = st.msgId + 1) ∧
    (∀ (st : SessionState) (m : String) (p : Option Json) (t : Nat)
        (parse : String → Option Json) (a : List String),
      st.started = true →
      (sendRequest st m p t none parse a).written =
        some (requestEnvelope m (p.getD (Json.obj [])) st.msgId)) ∧
    (∀ (parse : String → Option Json) (ops : List SessionOp)
        (st : SessionState),
      List.Chain' (fun x y => x < y) (allocIds parse st ops)) ∧
    (∀ (parse : String → Option Json) (m : String) (p : Option Json) (t : Nat)
        (w : Option String) (a : List String) (n : Nat) (st : SessionState),
      st.started = true →
      allocIds parse st (List.replicate n (SessionOp.send m p t w a)) =
        consecFrom st.msgId n) := by
  refine ⟨fun d => rfl, ?_, ?_, ?_, ?_⟩
  · intro st m p t w parse a hst
    exact sendRequest_state_msgId st m p t w parse a hst
  · intro st m p t parse a hst
    cases hd : firstDelivered parse (registerState st) st.msgId a with
    | some r => rw [sendRequest_delivered st m p t parse a r hst hd]
    | none => rw [sendRequest_timeout st m p t parse a hst hd]
  · intro parse ops st
    exact allocIds_chain parse ops st
  · intro parse m p t w a n st hst
    exact allocIds_replicate parse m p t w a n st hst

/-- Witness for C4: counter starts at 1; a send on a fresh session
allocates id 1 and bumps the counter to 2; three consecutive sends
allocate 1, 2, 3. -/
theorem spec_c4_witness :
    (initSession "out").msgId = 1 ∧
    (sendRequest stStarted "tools/call" none 60 none testParse
        []).state.msgId = stStarted.msgId + 1 ∧
    (sendRequest stStarted "tools/call" none 60 none testParse []).written =
      some (requestEnvelope "tools/call" (Json.obj []) stStarted.msgId) ∧
    List.Chain' (fun x y => x < y) (allocIds testParse stStarted
      [SessionOp.send "m1" none 60 none [],
        SessionOp.send "m2" none 60 none []]) ∧
    allocIds testParse stStarted
        (List.replicate 3 (SessionOp.send "m1" none 60 none [])) =
      consecFrom stStarted.msgId 3 :=
  ⟨spec_c4_monotonic_ids.1 "out",
    spec_c4_monotonic_ids.2.1 stStarted "tools/call" none 60 none testParse []
      rfl,
    spec_c4_monotonic_ids.2.2.1 stStarted "tools/call" none 60 testParse []
      rfl,
    spec_c4_monotonic_ids.2.2.2.1 testParse
      [SessionOp.send "m1" none 60 none [],
        SessionOp.send "m2" none 60 none []] stStarted,
    spec_c4_monotonic_ids.2.2.2.2 testParse "m1" none 60 none [] 3 stStarted
      rfl⟩

/-- C5: a whitespace-only line, and a non-empty line that fails to parse
as JSON, are both skipped by the pump: the step raises nothing, the
session state — table and every result slot — is unchanged, and the loop
simply continues with the remaining lines. -/
theorem spec_c5_malformed_line_ignored
    (parse : String → Option Json) (st : SessionState) (line : String)
    (rest : List String)
    (h : pyStrip line = "" ∨ parse (pyStrip line) = none) :
    readStdoutStep parse st line = (st, none) ∧
    readStdoutRun parse st (line :: rest) = readStdoutRun parse st rest := by
  have hstep : readStdoutStep parse st line = (st, none) := by
    rcases h with h | h
    · simp [readStdoutStep, h]
    · by_cases h0 : pyStrip line = ""
      · simp [readStdoutStep, h0]
      · simp [readStdoutStep, h0, h]
  refine ⟨hstep, ?_⟩
  conv_lhs => rw [readStdoutRun]
  rw [hstep]

/-- Witness for C5: a blank line and a garbage line, each followed by
further input, are skipped while pending entry 1 stays untouched. -/
theorem spec_c5_witness :
    (readStdoutStep testParse stPending1 "   " = (stPending1, none) ∧
      readStdoutRun testParse stPending1 ["   "] =
        readStdoutRun testParse stPending1 []) ∧
    (readStdoutStep testParse stPending1 "garbage" = (stPending1, none) ∧
      readStdoutRun testParse stPending1 ["garbage", "R2"] =
        readStdoutRun testParse stPending1 ["R2"]) :=
  ⟨spec_c5_malformed_line_ignored testParse stPending1 "   " [] (Or.inl rfl),
    spec_c5_malformed_line_ignored testParse stPending1 "garbage" ["R2"]
      (Or.inr rfl)⟩

/-- C6: neither the pump terminating nor `stop` touches pending entries.
`stop` leaves the table exactly as it was; the pump exiting on a closed
stream performs no state change; the pump run never removes a key; and an
entry no processed line targets keeps its exact (unresolved) result slot,
so its caller stays blocked until its own timeout. -/
theorem spec_c6_stop_and_pump_exit_frame :
    (∀ st : SessionState, (stop st).pending = st.pending) ∧
    (∀ (parse : String → Option Json) (st : SessionState),
      readStdout parse st [] = (st, none)) ∧
    (∀ (parse : String → Option Json) (lines : List String)
        (st : SessionState) (i : Int),
      containsKey st.pending i = true →
      containsKey (readStdout parse st lines).1.pending i = true) ∧
    (∀ (parse : String → Option Json) (lines : List String)
        (st : SessionState) (i : Int),
      (lines.all fun l => !(lineTargets parse l i)) = true →
      klookup (readStdout parse st lines).1.pending i
        = klookup st.pending i) := by
  refine ⟨stop_pending, ?_, ?_, ?_⟩
  · intro parse st
    unfold readStdout
    split <;> rfl
  · intro parse lines st i h
    unfold readStdout
    split
    · rw [readStdoutRun_containsKey parse lines st i]
      exact h
    · exact h
  · intro parse lines st i h
    unfold readStdout
    split
    · exact readStdoutRun_klookup parse lines st i h
    · rfl

/-- Witness for C6: stopping with entry 1 pending keeps it, a closed
stream changes nothing, and a line for id 2 leaves the slot of entry 1
exactly as it was. -/
theorem spec_c6_witness :
    (stop stPending1).pending = stPending1.pending ∧
    readStdout testParse stPending1 [] = (stPending1, none) ∧
    containsKey (readStdout testParse stPending1 ["R2"]).1.pending 1 = true ∧
    klookup (readStdout testParse stPending1 ["R2"]).1.pending 1 =
      klookup stPending1.pending 1 :=
  ⟨spec_c6_stop_and_pump_exit_frame.1 stPending1,
    spec_c6_stop_and_pump_exit_frame.2.1 testParse stPending1,
    spec_c6_stop_and_pump_exit_frame.2.2.1 testParse ["R2"] stPending1 1 rfl,
    spec_c6_stop_and_pump_exit_frame.2.2.2 testParse ["R2"] stPending1 1 rfl⟩

/-- C7: a navigate reply of the form
`{"id": n, "result": {"content": [{"type": "text", "text": s}]}}`
delivered for the request makes the facade `navigate` return exactly `s`;
in general, on a reply with no `error` key whose `result.content` is a
list of well-formed segments, the shared text decoder returns the
newline-joined `text` fields of the segments whose `type` is `text`, in
order. -/
theorem spec_c7_text_extraction :
    (∀ (st : SessionState) (parse : String → Option Json)
        (arrivals : List String) (url : String) (n : Int) (s : String),
      st.started = true →
      firstDelivered parse (registerState st) st.msgId arrivals =
        some (textReply n s) →
      (navigate st none parse arrivals url).1 = Except.ok s) ∧
    (∀ (fs rv : List (String × Json)) (segs : List Json),
      dlookup fs "error" = none →
      dlookup fs "result" = some (Json.obj rv) →
      dlookup rv "content" = some (Json.arr segs) →
      segs.all segWellFormed = true →
      extractText (Json.obj fs) =
        Except.ok (pyJoin "\n" (specTextSegments segs))) := by
  constructor
  · intro st parse arrivals url n s hst hd
    have h1 := textToolCall_delivered st "browser_navigate"
      (Json.obj [("url", Json.str url)]) parse arrivals (textReply n s) hst hd
    have h2 : extractText (textReply n s) = Except.ok s := by
      have h3 := extractText_content
        [("id", Json.num n), ("result", Json.obj [("content",
          Json.arr [Json.obj [("type", Json.str "text"),
            ("text", Json.str s)]])])]
        [("content", Json.arr [Json.obj [("type", Json.str "text"),
          ("text", Json.str s)]])]
        [Json.obj [("type", Json.str "text"), ("text", Json.str s)]]
        rfl rfl rfl rfl
      exact h3
    exact h1.trans h2
  · intro fs rv segs he hr hc hw
    exact extractText_content fs rv segs he hr hc hw

/-- Witness for C7: the spec scenario (reply id 1, one text segment
`snapshot...`) makes `navigate` return `snapshot...`, and a two-segment
reply joins in order. -/
theorem spec_c7_witness :
    (navigate stStarted none testParse ["R1"] "https://example.com").1 =
      Except.ok "snapshot..." ∧
    extractText (Json.obj [("id", Json.num 7), ("result", Json.obj
        [("content", Json.arr [Json.obj [("type", Json.str "text"),
          ("text", Json.str "a")], Json.obj [("type", Json.str "text"),
          ("text", Json.str "b")]])])]) =
      Except.ok (pyJoin "\n" (specTextSegments
        [Json.obj [("type", Json.str "text"), ("text", Json.str "a")],
          Json.obj [("type", Json.str "text"), ("text", Json.str "b")]])) :=
  ⟨spec_c7_text_extraction.1 stStarted testParse ["R1"] "https://example.com"
      1 "snapshot..." rfl rfl,
    spec_c7_text_extraction.2
      [("id", Json.num 7), ("result", Json.obj [("content",
        Json.arr [Json.obj [("type", Json.str "text"), ("text", Json.str "a")],
          Json.obj [("type", Json.str "text"), ("text", Json.str "b")]])])]
      [("content", Json.arr [Json.obj [("type", Json.str "text"),
        ("text", Json.str "a")], Json.obj [("type", Json.str "text"),
        ("text", Json.str "b")]])]
      [Json.obj [("type", Json.str "text"), ("text", Json.str "a")],
        Json.obj [("type", Json.str "text"), ("text", Json.str "b")]]
      rfl rfl rfl rfl⟩

/-- C8: screenshot naming and decoding.  Name defaults to the timestamp
when omitted and gets `.png` appended unless already a suffix; a reply
whose content carries an image segment (after any non-image segments) has
its data base64-decoded and written to a file under the output directory,
whose path is returned; a reply whose content has no image segment yields
a descriptive failure string and writes no file. -/
theorem spec_c8_screenshot :
    (∀ ts : String, pyEndsWith ts ".png" = false →
      pngName none ts = ts ++ ".png") ∧
    (∀ s ts : String, s ≠ "" → pyEndsWith s ".png" = true →
      pngName (some s) ts = s) ∧
    (∀ s ts : String, s ≠ "" → pyEndsWith s ".png" = false →
      pngName (some s) ts = s ++ ".png") ∧
    (∀ (st : SessionState) (name : Option String) (fullPage : Bool)
        (ts : String) (b64 : String → List Nat)
        (parse : String → Option Json) (arrivals : List String)
        (fs rv : List (String × Json)) (pre rest2 : List Json) (d : String),
      st.started = true →
      firstDelivered parse (registerState st) st.msgId arrivals =
        some (Json.obj fs) →
      dlookup fs "result" = some (Json.obj rv) →
      dlookup rv "content" = some (Json.arr (pre ++
        Json.obj [("type", Json.str "image"), ("data", Json.str d)]
          :: rest2)) →
      pre.all nonImageSeg = true →
      (screenshot st name fullPage ts b64 none parse arrivals).result =
        Except.ok (st.outputDir ++ "/" ++ pngName name ts) ∧
      (screenshot st name fullPage ts b64 none parse arrivals).fileWritten =
        some (st.outputDir ++ "/" ++ pngName name ts, b64 d)) ∧
    (∀ (st : SessionState) (name : Option String) (fullPage : Bool)
        (ts : String) (b64 : String → List Nat)
        (parse : String → Option Json) (arrivals : List String)
        (fs rv : List (String × Json)) (segs : List Json),
      st.started = true →
      firstDelivered parse (registerState st) st.msgId arrivals =
        some (Json.obj fs) →
      dlookup fs "result" = some (Json.obj rv) →
      dlookup rv "content" = some (Json.arr segs) →
      segs.all nonImageSeg = true →
      (screenshot st name fullPage ts b64 none parse arrivals).result =
        Except.ok ("Screenshot failed: " ++ pyStr (Json.obj fs)) ∧
      (screenshot st name fullPage ts b64 none parse arrivals).fileWritten =
        none) := by
  refine ⟨?_, ?_, ?_, ?_, ?_⟩
  · intro ts h
    simp [pngName, h]
  · intro s ts hne h
    simp [pngName, hne, h]
  · intro s ts hne h
    simp [pngName, hne, h]
  · intro st name fullPage ts b64 parse arrivals fs rv pre rest2 d hst hd hr hc
      hpre
    unfold screenshot callTool
    rw [sendRequest_delivered st "tools/call"
      (some (Json.obj [("name", Json.str "browser_take_screenshot"),
        ("arguments", Json.obj [("fullPage", Json.bool fullPage)])]))
      60 parse arrivals (Json.obj fs) hst hd]
    simp [pyIn, pyIndex, pyIter, hr, hc, findImage_first b64 d pre rest2 hpre]
  · intro st name fullPage ts b64 parse arrivals fs rv segs hst hd hr hc hni
    unfold screenshot callTool
    rw [sendRequest_delivered st "tools/call"
      (some (Json.obj [("name", Json.str "browser_take_screenshot"),
        ("arguments", Json.obj [("fullPage", Json.bool fullPage)])]))
      60 parse arrivals (Json.obj fs) hst hd]
    simp [pyIn, pyIndex, pyIter, hr, hc, findImage_none b64 segs hni]

/-- Witness for C8: with the image reply delivered, the decoded bytes are
recorded as written to `out/20240101_120000.png` and that path returned;
with a text-only reply, a failure string is returned and nothing written;
the naming rules at concrete names. -/
theorem spec_c8_witness :
    pngName none "20240101_120000" = "20240101_120000" ++ ".png" ∧
    pngName (some "shot.png") "20240101_120000" = "shot.png" ∧
    pngName (some "shot") "20240101_120000" = "shot" ++ ".png" ∧
    ((screenshot stStarted none false "20240101_120000" testB64 none testParse
        ["IMG1"]).result =
      Except.ok (stStarted.outputDir ++ "/" ++
        pngName none "20240101_120000") ∧
    (screenshot stStarted none false "20240101_120000" testB64 none testParse
        ["IMG1"]).fileWritten =
      some (stStarted.outputDir ++ "/" ++ pngName none "20240101_120000",
        testB64 "QUJD")) ∧
    ((screenshot stStarted none false "20240101_120000" testB64 none testParse
        ["R1"]).result =
      Except.ok ("Screenshot failed: " ++ pyStr (Json.obj
        [("id", Json.num 1), ("result", Json.obj [("content",
          Json.arr [Json.obj [("type", Json.str "text"),
            ("text", Json.str "snapshot...")]])])])) ∧
    (screenshot stStarted none false "20240101_120000" testB64 none testParse
        ["R1"]).fileWritten = none) :=
  ⟨spec_c8_screenshot.1 "20240101_120000" rfl,
    spec_c8_screenshot.2.1 "shot.png" "20240101_120000" (by decide) rfl,
    spec_c8_screenshot.2.2.1 "shot" "20240101_120000" (by decide) rfl,
    spec_c8_screenshot.2.2.2.1 stStarted none false "20240101_120000" testB64
      testParse ["IMG1"]
      [("id", Json.num 1), ("result", Json.obj [("content",
        Json.arr [Json.obj [("type", Json.str "image"),
          ("data", Json.str "QUJD")]])])]
      [("content", Json.arr [Json.obj [("type", Json.str "image"),
        ("data", Json.str "QUJD")]])]
      [] [] "QUJD" rfl rfl rfl rfl rfl,
    spec_c8_screenshot.2.2.2.2 stStarted none false "20240101_120000" testB64
      testParse ["R1"]
      [("id", Json.num 1), ("result", Json.obj [("content",
        Json.arr [Json.obj [("type", Json.str "text"),
          ("text", Json.str "snapshot...")]])])]
      [("content", Json.arr [Json.obj [("type", Json.str "text"),
        ("text", Json.str "snapshot...")]])]
      [Json.obj [("type", Json.str "text"), ("text", Json.str "snapshot...")]]
      rfl rfl rfl rfl rfl⟩

/-- C9: a reply carrying an `error` key is returned — not raised — as a
formatted error string by every facade operation: the shared text decoder
(and hence navigate, click, type_text, evaluate, resize and snapshot)
returns `Error: ...` for any dict with an `error` key, and screenshot
returns its failure string for an error reply (which has no `result`
field) without writing a file.  By contrast the handshake raises
`RuntimeError` on an `error` key in its reply, and transport failures
(failed write, timeout) are raised as exceptions. -/
theorem spec_c9_error_surfacing :
    (∀ (fs : List (String × Json)) (e : Json),
      dlookup fs "error" = some e →
      extractText (Json.obj fs) = Except.ok ("Error: " ++ pyStr e)) ∧
    (∀ (st : SessionState) (parse : String → Option Json)
        (arrivals : List String) (fs : List (String × Json)) (e : Json)
        (url : String),
      st.started = true →
      firstDelivered parse (registerState st) st.msgId arrivals =
        some (Json.obj fs) →
      dlookup fs "error" = some e →
      (navigate st none parse arrivals url).1 =
        Except.ok ("Error: " ++ pyStr e)) ∧
    (∀ (st : SessionState) (parse : String → Option Json)
        (arrivals : List String) (fs : List (String × Json)) (e : Json)
        (element ref : String),
      st.started = true →
      firstDelivered parse (registerState st) st.msgId arrivals =
        some (Json.obj fs) →
      dlookup fs "error" = some e →
      (click st none parse arrivals element ref).1 =
        Except.ok ("Error: " ++ pyStr e)) ∧
    (∀ (st : SessionState) (parse : String → Option Json)
        (arrivals : List String) (fs : List (String × Json)) (e : Json)
        (element ref text : String) (submit : Bool),
      st.started = true →
      firstDelivered parse (registerState st) st.msgId arrivals =
        some (Json.obj fs) →
      dlookup fs "error" = some e →
      (type_text st none parse arrivals element ref text submit).1 =
        Except.ok ("Error: " ++ pyStr e)) ∧
    (∀ (st : SessionState) (parse : String → Option Json)
        (arrivals : List String) (fs : List (String × Json)) (e : Json)
        (script : String),
      st.started = true →
      firstDelivered parse (registerState st) st.msgId arrivals =
        some (Json.obj fs) →
      dlookup fs "error" = some e →
      (evaluate st none parse arrivals script).1 =
        Except.ok ("Error: " ++ pyStr e)) ∧
    (∀ (st : SessionState) (parse : String → Option Json)
        (arrivals : List String) (fs : List (String × Json)) (e : Json)
        (width height : Int),
      st.started = true →
      firstDelivered parse (registerState st) st.msgId arrivals =
        some (Json.obj fs) →
      dlookup fs "error" = some e →
      (resize st none parse arrivals width height).1 =
        Except.ok ("Error: " ++ pyStr e)) ∧
    (∀ (st : SessionState) (parse : String → Option Json)
        (arrivals : List String) (fs : List (String × Json)) (e : Json),
      st.started = true →
      firstDelivered parse (registerState st) st.msgId arrivals =
        some (Json.obj fs) →
      dlookup fs "error" = some e →
      (snapshot st none parse arrivals).1 =
        Except.ok ("Error: " ++ pyStr e)) ∧
    (∀ (st : SessionState) (name : Option String) (fullPage : Bool)
        (ts : String) (b64 : String → List Nat)
        (parse : String → Option Json) (arrivals : List String)
        (fs : List (String × Json)) (e : Json),
      st.started = true →
      firstDelivered parse (registerState st) st.msgId arrivals =
        some (Json.obj fs) →
      dlookup fs "error" = some e →
      dlookup fs "result" = none →
      (screenshot st name fullPage ts b64 none parse arrivals).result =
        Except.ok ("Screenshot failed: " ++ pyStr (Json.obj fs)) ∧
      (screenshot st name fullPage ts b64 none parse arrivals).fileWritten =
        none) ∧
    (∀ (st : SessionState) (parse : String → Option Json)
        (arrivals : List String) (fs : List (String × Json)) (e : Json),
      st.started = true →
      firstDelivered parse (registerState st) st.msgId arrivals =
        some (Json.obj fs) →
      dlookup fs "error" = some e →
      (handshakeInit st none parse arrivals).1 =
        Except.error (PyExc.runtimeError ("Initialize failed: " ++ pyStr e))) ∧
    (∀ (st : SessionState) (m : String) (p : Option Json) (t : Nat)
        (e : String) (parse : String → Option Json) (a : List String),
      st.started = true →
      (sendRequest st m p t (some e) parse a).result =
        Except.error (PyExc.runtimeError ("Send failed: " ++ e)) ∧
      (firstDelivered parse (registerState st) st.msgId a = none →
        (sendRequest st m p t none parse a).result =
          Except.error (PyExc.timeoutError
            ("Request timed out after " ++ toString t ++ "s")))) := by
  refine ⟨extractText_error, ?_, ?_, ?_, ?_, ?_, ?_, ?_, ?_, ?_⟩
  · intro st parse arrivals fs e url hst hd he
    exact (textToolCall_delivered st "browser_navigate"
      (Json.obj [("url", Json.str url)]) parse arrivals (Json.obj fs) hst
        hd).trans (extractText_error fs e he)
  · intro st parse arrivals fs e element ref hst hd he
    exact (textToolCall_delivered st "browser_click"
      (Json.obj [("element", Json.str element), ("ref", Json.str ref)])
      parse arrivals (Json.obj fs) hst hd).trans (extractText_error fs e he)
  · intro st parse arrivals fs e element ref text submit hst hd he
    exact (textToolCall_delivered st "browser_type"
      (Json.obj [("element", Json.str element), ("ref", Json.str ref),
        ("text", Json.str text), ("submit", Json.bool submit)])
      parse arrivals (Json.obj fs) hst hd).trans (extractText_error fs e he)
  · intro st parse arrivals fs e script hst hd he
    exact (textToolCall_delivered st "browser_evaluate"
      (Json.obj [("function", Json.str script)]) parse arrivals (Json.obj fs)
      hst hd).trans (extractText_error fs e he)
  · intro st parse arrivals fs e width height hst hd he
    exact (textToolCall_delivered st "browser_resize"
      (Json.obj [("width", Json.num width), ("height", Json.num height)])
      parse arrivals (Json.obj fs) hst hd).trans (extractText_error fs e he)
  · intro st parse arrivals fs e hst hd he
    exact (textToolCall_delivered st "browser_snapshot" (Json.obj []) parse
      arrivals (Json.obj fs) hst hd).trans (extractText_error fs e he)
  · intro st name fullPage ts b64 parse arrivals fs e hst hd he hr
    unfold screenshot callTool
    rw [sendRequest_delivered st "tools/call"
      (some (Json.obj [("name", Json.str "browser_take_screenshot"),
        ("arguments", Json.obj [("fullPage", Json.bool fullPage)])]))
      60 parse arrivals (Json.obj fs) hst hd]
    simp [pyIn, hr]
  · intro st parse arrivals fs e hst hd he
    unfold handshakeInit
    rw [sendRequest_delivered st "initialize"
      (some (Json.obj [("protocolVersion", Json.str "2024-11-05"),
        ("capabilities", Json.obj []),
        ("clientInfo", Json.obj [("name", Json.str "playwright-session"),
          ("version", Json.str "1.0.0")])]))
      60 parse arrivals (Json.obj fs) hst hd]
    simp [pyIn, pyIndex, he]
  · intro st m p t e parse a hst
    constructor
    · rw [sendRequest_writeErr st m p t e parse a hst]
    · intro hd
      rw [sendRequest_timeout st m p t parse a hst hd]

/-- Witness for C9 at the concrete error reply `{"id": 1,
"error": "boom"}` and concrete transport failures. -/
theorem spec_c9_witness :
    extractText (Json.obj [("id", Json.num 1), ("error", Json.str "boom")]) =
      Except.ok ("Error: " ++ pyStr (Json.str "boom")) ∧
    (navigate stStarted none testParse ["E1"] "https://example.com").1 =
      Except.ok ("Error: " ++ pyStr (Json.str "boom")) ∧
    (click stStarted none testParse ["E1"] "button" "e5").1 =
      Except.ok ("Error: " ++ pyStr (Json.str "boom")) ∧
    (type_text stStarted none testParse ["E1"] "field" "e6" "hi" false).1 =
      Except.ok ("Error: " ++ pyStr (Json.str "boom")) ∧
    (evaluate stStarted none testParse ["E1"] "1+1").1 =
      Except.ok ("Error: " ++ pyStr (Json.str "boom")) ∧
    (resize stStarted none testParse ["E1"] 800 600).1 =
      Except.ok ("Error: " ++ pyStr (Json.str "boom")) ∧
    (snapshot stStarted none testParse ["E1"]).1 =
      Except.ok ("Error: " ++ pyStr (Json.str "boom")) ∧
    ((screenshot stStarted none false "20240101_120000" testB64 none testParse
        ["E1"]).result =
      Except.ok ("Screenshot failed: " ++ pyStr (Json.obj
        [("id", Json.num 1), ("error", Json.str "boom")])) ∧
    (screenshot stStarted none false "20240101_120000" testB64 none testParse
        ["E1"]).fileWritten = none) ∧
    (handshakeInit stStarted none testParse ["E1"]).1 =
      Except.error (PyExc.runtimeError
        ("Initialize failed: " ++ pyStr (Json.str "boom"))) ∧
    ((sendRequest stStarted "tools/call" none 60 (some "oops") testParse
        []).result =
      Except.error (PyExc.runtimeError ("Send failed: " ++ "oops")) ∧
    (firstDelivered testParse (registerState stStarted) stStarted.msgId [] =
        none →
      (sendRequest stStarted "tools/call" none 60 none testParse []).result =
        Except.error (PyExc.timeoutError
          ("Request timed out after " ++ toString 60 ++ "s")))) :=
  ⟨spec_c9_error_surfacing.1 [("id", Json.num 1), ("error", Json.str "boom")]
      (Json.str "boom") rfl,
    spec_c9_error_surfacing.2.1 stStarted testParse ["E1"]
      [("id", Json.num 1), ("error", Json.str "boom")] (Json.str "boom")
      "https://example.com" rfl rfl rfl,
    spec_c9_error_surfacing.2.2.1 stStarted testParse ["E1"]
      [("id", Json.num 1), ("error", Json.str "boom")] (Json.str "boom")
      "button" "e5" rfl rfl rfl,
    spec_c9_error_surfacing.2.2.2.1 stStarted testParse ["E1"]
      [("id", Json.num 1), ("error", Json.str "boom")] (Json.str "boom")
      "field" "e6" "hi" false rfl rfl rfl,
    spec_c9_error_surfacing.2.2.2.2.1 stStarted testParse ["E1"]
      [("id", Json.num 1), ("error", Json.str "boom")] (Json.str "boom")
      "1+1" rfl rfl rfl,
    spec_c9_error_surfacing.2.2.2.2.2.1 stStarted testParse ["E1"]
      [("id", Json.num 1), ("error", Json.str "boom")] (Json.str "boom")
      800 600 rfl rfl rfl,
    spec_c9_error_surfacing.2.2.2.2.2.2.1 stStarted testParse ["E1"]
      [("id", Json.num 1), ("error", Json.str "boom")] (Json.str "boom")
      rfl rfl rfl,
    spec_c9_error_surfacing.2.2.2.2.2.2.2.1 stStarted none false
      "20240101_120000" testB64 testParse ["E1"]
      [("id", Json.num 1), ("error", Json.str "boom")] (Json.str "boom")
      rfl rfl rfl rfl,
    spec_c9_error_surfacing.2.2.2.2.2.2.2.2.1 stStarted testParse ["E1"]
      [("id", Json.num 1), ("error", Json.str "boom")] (Json.str "boom")
      rfl rfl rfl,
    spec_c9_error_surfacing.2.2.2.2.2.2.2.2.2 stStarted "tools/call" none 60
      "oops" testParse [] rfl⟩

/-- C10 counterexample: the reply dict `{"result": 5}` contains neither
an `error` key nor a `result` key with a `content` field, yet the text
decoder raises `TypeError` (Python evaluates `"content" in 5` against the
non-iterable result value) instead of returning the serialized reply; a
facade call receiving `{"id": 1, "result": 5}` propagates that exception
to the caller. -/
theorem spec_c10_counterexample :
    extractText (Json.obj [("result", Json.num 5)]) =
      Except.error (PyExc.typeError "argument not iterable") ∧
    (navigate stStarted none testParse ["B1"] "https://example.com").1 =
      Except.error (PyExc.typeError "argument not iterable") :=
  ⟨rfl, rfl⟩

/-- C10 (amended): for every reply dict with no `error` key and either no
`result` key or a `result` value that is itself a dict with no `content`
key, the decoder returns the whole reply serialized as indented JSON
(never the empty string) without raising; since every text-returning
facade method (navigate, snapshot, click, type_text, evaluate, resize) is
`textToolCall` at a fixed tool name, the second conjunct covers them
all. -/
theorem spec_c10_dumps_fallback :
    (∀ fs : List (String × Json),
      dlookup fs "error" = none →
      (dlookup fs "result" = none ∨
        ∃ rv : List (String × Json),
          dlookup fs "result" = some (Json.obj rv) ∧
          dlookup rv "content" = none) →
      extractText (Json.obj fs) = Except.ok (dumps (Json.obj fs)) ∧
      dumps (Json.obj fs) ≠ "") ∧
    (∀ (st : SessionState) (name : String) (args : Json)
        (parse : String → Option Json) (arrivals : List String)
        (fs : List (String × Json)),
      st.started = true →
      firstDelivered parse (registerState st) st.msgId arrivals =
        some (Json.obj fs) →
      dlookup fs "error" = none →
      (dlookup fs "result" = none ∨
        ∃ rv : List (String × Json),
          dlookup fs "result" = some (Json.obj rv) ∧
          dlookup rv "content" = none) →
      (textToolCall st name args none parse arrivals).1 =
        Except.ok (dumps (Json.obj fs))) := by
  constructor
  · intro fs he hr
    refine ⟨?_, dumps_obj_ne_empty fs⟩
    rcases hr with hr | ⟨rv, hr, hc⟩
    · exact extractText_dumps_of_no_result fs he hr
    · exact extractText_dumps_of_no_content fs rv he hr hc
  · intro st name args parse arrivals fs hst hd he hr
    have h1 := textToolCall_delivered st name args parse arrivals
      (Json.obj fs) hst hd
    rcases hr with hr | ⟨rv, hr, hc⟩
    · exact h1.trans (extractText_dumps_of_no_result fs he hr)
    · exact h1.trans (extractText_dumps_of_no_content fs rv he hr hc)

/-- Witness for the amended C10 at the reply `{"id": 1}`. -/
theorem spec_c10_witness :
    (extractText (Json.obj [("id", Json.num 1)]) =
        Except.ok (dumps (Json.obj [("id", Json.num 1)])) ∧
      dumps (Json.obj [("id", Json.num 1)]) ≠ "") ∧
    (textToolCall stStarted "browser_navigate"
        (Json.obj [("url", Json.str "https://example.com")]) none testParse
        ["D1"]).1 =
      Except.ok (dumps (Json.obj [("id", Json.num 1)])) :=
  ⟨spec_c10_dumps_fallback.1 [("id", Json.num 1)] rfl (Or.inl rfl),
    spec_c10_dumps_fallback.2 stStarted "browser_navigate"
      (Json.obj [("url", Json.str "https://example.com")]) testParse ["D1"]
      [("id", Json.num 1)] rfl rfl rfl (Or.inl rfl)⟩
